import Mathlib

/-!
Shallow embedding of the bridge-go event bridge (src/main.go) and proofs of
the spec claims about it.

Conventions of the embedding:
* Go strings are Lean `String`s; the `for _, c := range name` loop over a
  Go string iterates runes, which matches folding over `String.data` with
  `Char.toNat`.
* The `Position` field is `[]float64` in Go, but every value ever stored in
  it is `float64` of a small Go `int` expression, an exact conversion; the
  embedding therefore uses `Int`.
* Effects on the outside world (channel sends, websocket writes, Kubernetes
  API calls, log lines) are returned as explicit values; results of external
  calls (write errors, list/delete/create errors, inbound frames) are
  parameters of the embedded functions.
-/

namespace Bridge

/-- A Kubernetes pod as seen by the handlers: namespace, name, UID and
status phase (the only fields `main.go` reads). -/
structure Pod where
  ns : String
  name : String
  uid : String
  phase : String
deriving DecidableEq

/-- The `BridgeMessage` struct of src/main.go lines 37-44 (field `Type`,
`ID`, `Name`, `Status`, `HP`, `Position`). -/
structure BridgeMessage where
  type : String
  id : String
  name : String
  status : String
  hp : Int
  position : List Int
deriving DecidableEq

/-- The `IncomingMessage` struct of src/main.go lines 46-49. -/
structure IncomingMessage where
  action : String
  podID : String
deriving DecidableEq

/-- The hash loop of `handleK8sEvent` (src/main.go lines 141-144):
`for _, c := range k8sPod.Name { hash += int(c) }` — the sum of the
character codes (rune code points) of the name. -/
def nameHash (name : String) : Nat :=
  name.data.foldl (fun h c => h + c.toNat) 0

/-- `handleK8sEvent` (src/main.go lines 135-158).  Returns the message sent
on the `broadcast` channel, or `none` when the event is dropped by the
namespace filter (lines 136-138). -/
def handleK8sEvent (eventType : String) (pod : Pod) : Option BridgeMessage :=
  if pod.ns ≠ "default" then
    none
  else
    some { type := eventType
           id := pod.uid
           name := pod.name
           status := pod.phase
           hp := 5
           position := [((nameHash pod.name % 10 : Nat) : Int) - 5, 0,
                        ((nameHash pod.name / 10 % 10 : Nat) : Int) - 5] }

/-- Client sessions are identified abstractly; the Go code keys its
`wsClients` map on the `*websocket.Conn` pointer. -/
abbrev Session := Nat

/-- One fan-out cycle of `handleMessages` (src/main.go lines 163-170):
the sessions still registered after delivering `m` to every registered
session.  `wf s m = true` models `client.WriteJSON(msg)` returning an
error for session `s`; such a session is deleted from `wsClients`. -/
def handleMessagesStep (wf : Session → BridgeMessage → Bool)
    (clients : List Session) (m : BridgeMessage) : List Session :=
  clients.filter (fun s => !(wf s m))

/-- The sessions whose connection `handleMessages` closes while delivering
`m` (the `client.Close()` call on src/main.go line 167): exactly the
sessions whose write failed. -/
def closedDuring (wf : Session → BridgeMessage → Bool)
    (clients : List Session) (m : BridgeMessage) : List Session :=
  clients.filter (fun s => wf s m)

/-- The sequence of messages session `s` successfully receives while the
delivery loop of `handleMessages` consumes the queued messages in order:
in each cycle a registered session receives the message exactly when its
write succeeds; failed sessions are removed before the next cycle. -/
def receivedBy (wf : Session → BridgeMessage → Bool) (s : Session) :
    List Session → List BridgeMessage → List BridgeMessage
  | _, [] => []
  | clients, m :: ms =>
    if s ∈ clients ∧ wf s m = false then
      m :: receivedBy wf s (handleMessagesStep wf clients m) ms
    else
      receivedBy wf s (handleMessagesStep wf clients m) ms

/-- Every `client.WriteJSON` attempt the delivery loop makes, as
(session, message) pairs: each queued message is attempted on every
session registered at the start of its cycle. -/
def writeAttempts (wf : Session → BridgeMessage → Bool) :
    List Session → List BridgeMessage → List (Session × BridgeMessage)
  | _, [] => []
  | clients, m :: ms =>
    clients.map (fun s => (s, m)) ++ writeAttempts wf (handleMessagesStep wf clients m) ms

/-- C1: for every lifecycle event in the target namespace the normalizer
output has hp = 5 and position [(hash mod 10) - 5, 0, ((hash div 10) mod
10) - 5] where hash is the sum of the character codes of the name, so two
events with identical names receive identical positions. -/
theorem c1_normalizer_position (ev1 ev2 : String) (p1 p2 : Pod)
    (m1 m2 : BridgeMessage)
    (h1 : handleK8sEvent ev1 p1 = some m1)
    (h2 : handleK8sEvent ev2 p2 = some m2)
    (hname : p1.name = p2.name) :
    m1.hp = 5 ∧
    m1.position = [((nameHash p1.name % 10 : Nat) : Int) - 5, 0,
                   ((nameHash p1.name / 10 % 10 : Nat) : Int) - 5] ∧
    m2.position = m1.position := by
  rw [handleK8sEvent] at h1 h2
  split at h1
  · exact absurd h1 (by simp)
  · split at h2
    · exact absurd h2 (by simp)
    · have e1 := Option.some.inj h1
      have e2 := Option.some.inj h2
      subst e1; subst e2
      refine ⟨rfl, rfl, ?_⟩
      simp [hname]

theorem c1_witness :
    handleK8sEvent "ADDED" ⟨"default", "web-1", "u1", "Pending"⟩
      = some ⟨"ADDED", "u1", "web-1", "Pending", 5, [-3, 0, -4]⟩ ∧
    handleK8sEvent "DELETED" ⟨"default", "web-1", "u2", "Running"⟩
      = some ⟨"DELETED", "u2", "web-1", "Running", 5, [-3, 0, -4]⟩ ∧
    ((⟨"ADDED", "u1", "web-1", "Pending", 5, [-3, 0, -4]⟩ : BridgeMessage).hp = 5 ∧
     (⟨"ADDED", "u1", "web-1", "Pending", 5, [-3, 0, -4]⟩ : BridgeMessage).position
       = [((nameHash "web-1" % 10 : Nat) : Int) - 5, 0,
          ((nameHash "web-1" / 10 % 10 : Nat) : Int) - 5] ∧
     (⟨"DELETED", "u2", "web-1", "Running", 5, [-3, 0, -4]⟩ : BridgeMessage).position
       = (⟨"ADDED", "u1", "web-1", "Pending", 5, [-3, 0, -4]⟩ : BridgeMessage).position) :=
  ⟨by decide, by decide,
   c1_normalizer_position "ADDED" "DELETED"
     ⟨"default", "web-1", "u1", "Pending"⟩ ⟨"default", "web-1", "u2", "Running"⟩
     ⟨"ADDED", "u1", "web-1", "Pending", 5, [-3, 0, -4]⟩
     ⟨"DELETED", "u2", "web-1", "Running", 5, [-3, 0, -4]⟩
     (by decide) (by decide) rfl⟩

/-- C2: an event whose namespace is not "default" produces no
WireMessage: the handler returns before building a message, nothing is
enqueued, and no client receives anything derived from it. -/
theorem c2_nondefault_dropped (ev : String) (pod : Pod)
    (wf : Session → BridgeMessage → Bool) (s : Session) (clients : List Session)
    (h : pod.ns ≠ "default") :
    handleK8sEvent ev pod = none ∧
    receivedBy wf s clients (handleK8sEvent ev pod).toList = [] := by
  have hnone : handleK8sEvent ev pod = none := by
    rw [handleK8sEvent]; simp [h]
  exact ⟨hnone, by rw [hnone]; rfl⟩

theorem c2_witness :
    (⟨"kube-system", "web-1", "u1", "Pending"⟩ : Pod).ns ≠ "default" ∧
    (handleK8sEvent "ADDED" ⟨"kube-system", "web-1", "u1", "Pending"⟩ = none ∧
     receivedBy (fun _ _ => false) 0 [0]
       (handleK8sEvent "ADDED" ⟨"kube-system", "web-1", "u1", "Pending"⟩).toList = []) :=
  ⟨by decide,
   c2_nondefault_dropped "ADDED" ⟨"kube-system", "web-1", "u1", "Pending"⟩
     (fun _ _ => false) 0 [0] (by decide)⟩

/-- C10: every message the normalizer produces has position [x, 0, z] with
x and z integers between -5 and 4 inclusive. -/
theorem c10_position_bounded (ev : String) (pod : Pod) (msg : BridgeMessage)
    (h : handleK8sEvent ev pod = some msg) :
    ∃ x z : Int, msg.position = [x, 0, z] ∧
      -5 ≤ x ∧ x ≤ 4 ∧ -5 ≤ z ∧ z ≤ 4 := by
  rw [handleK8sEvent] at h
  split at h
  · exact absurd h (by simp)
  · have e := Option.some.inj h
    subst e
    refine ⟨_, _, rfl, ?_, ?_, ?_, ?_⟩ <;> omega

theorem c10_witness :
    handleK8sEvent "ADDED" ⟨"default", "web-1", "u1", "Pending"⟩
      = some ⟨"ADDED", "u1", "web-1", "Pending", 5, [-3, 0, -4]⟩ ∧
    (∃ x z : Int,
      (⟨"ADDED", "u1", "web-1", "Pending", 5, [-3, 0, -4]⟩ : BridgeMessage).position
        = [x, 0, z] ∧ -5 ≤ x ∧ x ≤ 4 ∧ -5 ≤ z ∧ z ≤ 4) :=
  ⟨by decide,
   c10_position_bounded "ADDED" ⟨"default", "web-1", "u1", "Pending"⟩
     ⟨"ADDED", "u1", "web-1", "Pending", 5, [-3, 0, -4]⟩ (by decide)⟩

/-- Helper: a session absent from the registry is never the target of a
write attempt in any later cycle. -/
theorem writeAttempts_not_mem (wf : Session → BridgeMessage → Bool) (s : Session) :
    ∀ (msgs : List BridgeMessage) (clients : List Session), s ∉ clients →
      ∀ p ∈ writeAttempts wf clients msgs, p.1 ≠ s := by
  intro msgs
  induction msgs with
  | nil => intro clients _ p hp; simp [writeAttempts] at hp
  | cons m ms ih =>
    intro clients hs p hp
    simp only [writeAttempts, List.mem_append] at hp
    rcases hp with hp | hp
    · obtain ⟨c, hc, rfl⟩ := List.mem_map.mp hp
      intro hcs
      have hcseq : c = s := hcs
      exact hs (hcseq ▸ hc)
    · refine ih (handleMessagesStep wf clients m) ?_ p hp
      intro hmem
      exact hs (List.mem_of_mem_filter hmem)

/-- C3: a session registered throughout the delivery of N published
messages (its writes never fail) receives all N messages, in exactly the
order they were published. -/
theorem c3_fifo_delivery (wf : Session → BridgeMessage → Bool)
    (clients : List Session) (msgs : List BridgeMessage) (s : Session)
    (hs : s ∈ clients) (hok : ∀ m ∈ msgs, wf s m = false) :
    receivedBy wf s clients msgs = msgs := by
  induction msgs generalizing clients with
  | nil => rfl
  | cons m ms ih =>
    have hm : wf s m = false := hok m (List.mem_cons_self m ms)
    have hs2 : s ∈ handleMessagesStep wf clients m := by
      refine List.mem_filter.mpr ⟨hs, ?_⟩
      simp [hm]
    simp only [receivedBy, if_pos (And.intro hs hm)]
    rw [ih (handleMessagesStep wf clients m) hs2
      (fun x hx => hok x (List.mem_cons_of_mem m hx))]

theorem c3_witness :
    (0 : Session) ∈ [0, 1] ∧
    (∀ m ∈ [(⟨"ADDED", "u1", "a", "Running", 5, [0, 0, 0]⟩ : BridgeMessage),
            ⟨"MODIFIED", "u2", "b", "Pending", 5, [1, 0, 1]⟩],
      (fun _ _ => false : Session → BridgeMessage → Bool) 0 m = false) ∧
    receivedBy (fun _ _ => false) 0 [0, 1]
      [⟨"ADDED", "u1", "a", "Running", 5, [0, 0, 0]⟩,
       ⟨"MODIFIED", "u2", "b", "Pending", 5, [1, 0, 1]⟩]
      = [⟨"ADDED", "u1", "a", "Running", 5, [0, 0, 0]⟩,
         ⟨"MODIFIED", "u2", "b", "Pending", 5, [1, 0, 1]⟩] :=
  ⟨by decide, by decide,
   c3_fifo_delivery (fun _ _ => false) [0, 1]
     [⟨"ADDED", "u1", "a", "Running", 5, [0, 0, 0]⟩,
      ⟨"MODIFIED", "u2", "b", "Pending", 5, [1, 0, 1]⟩] 0
     (by decide) (by decide)⟩

/-- C4: when a registered session fails the synchronous write of message m,
the loop closes its connection and removes it from the registry before the
next cycle, no later write attempt targets it, and any other registered
session whose write succeeds still receives m. -/
theorem c4_write_failure_isolation (wf : Session → BridgeMessage → Bool)
    (clients : List Session) (m : BridgeMessage) (ms : List BridgeMessage)
    (s t : Session)
    (hs : s ∈ clients) (hfail : wf s m = true)
    (ht : t ∈ clients) (htok : wf t m = false) :
    s ∈ closedDuring wf clients m ∧
    s ∉ handleMessagesStep wf clients m ∧
    (∀ p ∈ writeAttempts wf (handleMessagesStep wf clients m) ms, p.1 ≠ s) ∧
    m ∈ receivedBy wf t clients (m :: ms) := by
  have hnot : s ∉ handleMessagesStep wf clients m := by
    intro hmem
    have := (List.mem_filter.mp hmem).2
    simp [hfail] at this
  refine ⟨List.mem_filter.mpr ⟨hs, by simp [hfail]⟩, hnot,
    writeAttempts_not_mem wf s ms (handleMessagesStep wf clients m) hnot, ?_⟩
  simp only [receivedBy, if_pos (And.intro ht htok)]
  exact List.mem_cons_self _ _

theorem c4_witness :
    (0 : Session) ∈ [0, 1] ∧
    (fun s _ => s == 0 : Session → BridgeMessage → Bool) 0
      ⟨"ADDED", "u1", "a", "Running", 5, [0, 0, 0]⟩ = true ∧
    (1 : Session) ∈ [0, 1] ∧
    (fun s _ => s == 0 : Session → BridgeMessage → Bool) 1
      ⟨"ADDED", "u1", "a", "Running", 5, [0, 0, 0]⟩ = false ∧
    ((0 : Session) ∈ closedDuring (fun s _ => s == 0) [0, 1]
        ⟨"ADDED", "u1", "a", "Running", 5, [0, 0, 0]⟩ ∧
     (0 : Session) ∉ handleMessagesStep (fun s _ => s == 0) [0, 1]
        ⟨"ADDED", "u1", "a", "Running", 5, [0, 0, 0]⟩ ∧
     (∀ p ∈ writeAttempts (fun s _ => s == 0)
        (handleMessagesStep (fun s _ => s == 0) [0, 1]
          ⟨"ADDED", "u1", "a", "Running", 5, [0, 0, 0]⟩)
        [⟨"MODIFIED", "u2", "b", "Pending", 5, [1, 0, 1]⟩], p.1 ≠ 0) ∧
     (⟨"ADDED", "u1", "a", "Running", 5, [0, 0, 0]⟩ : BridgeMessage) ∈
       receivedBy (fun s _ => s == 0) 1 [0, 1]
         [⟨"ADDED", "u1", "a", "Running", 5, [0, 0, 0]⟩,
          ⟨"MODIFIED", "u2", "b", "Pending", 5, [1, 0, 1]⟩]) :=
  ⟨by decide, by decide, by decide, by decide,
   c4_write_failure_isolation (fun s _ => s == 0) [0, 1]
     ⟨"ADDED", "u1", "a", "Running", 5, [0, 0, 0]⟩
     [⟨"MODIFIED", "u2", "b", "Pending", 5, [1, 0, 1]⟩] 0 1
     (by decide) (by decide) (by decide) (by decide)⟩

/-- The two Actuator operations the command path can trigger
(src/main.go lines 192-198): `go deletePod(msg.PodID)` and
`go createPod()`. -/
inductive ActuatorCall where
  | deletePodCall (uid : String)
  | createPodCall
deriving DecidableEq

/-- The command-dispatch conditional inside the read loop of
`handleWebSocket` (src/main.go lines 192-198): which actuator call, if
any, a decoded inbound message triggers. -/
def dispatch (msg : IncomingMessage) : Option ActuatorCall :=
  if msg.action = "kill" ∧ msg.podID ≠ "" then
    some (ActuatorCall.deletePodCall msg.podID)
  else if msg.action = "create" then
    some ActuatorCall.createPodCall
  else
    none

/-- C5: the dispatcher invokes the delete actuator exactly when the action
is "kill" with a non-empty podId, invokes the create actuator exactly when
the action is "create", and makes no actuator call otherwise — in
particular "kill" with an empty podId is silently ignored. -/
theorem c5_dispatch (msg : IncomingMessage) :
    (dispatch msg = some (ActuatorCall.deletePodCall msg.podID) ↔
      (msg.action = "kill" ∧ msg.podID ≠ "")) ∧
    (dispatch msg = some ActuatorCall.createPodCall ↔ msg.action = "create") ∧
    ((msg.action ≠ "kill" ∧ msg.action ≠ "create") → dispatch msg = none) ∧
    ((msg.action = "kill" ∧ msg.podID = "") → dispatch msg = none) := by
  by_cases hk : msg.action = "kill" ∧ msg.podID ≠ ""
  · refine ⟨by simp [dispatch, hk], ?_, ?_, ?_⟩
    · rw [dispatch, if_pos hk]
      simp [hk.1]
    · intro hno; exact absurd hk.1 hno.1
    · intro hempty; exact absurd hempty.2 hk.2
  · by_cases hc : msg.action = "create"
    · refine ⟨by simp [dispatch, hk, hc], by simp [dispatch, hk, hc], ?_, ?_⟩
      · intro hno; exact absurd hc hno.2
      · intro hempty; exact absurd (hc.symm.trans hempty.1) (by decide)
    · refine ⟨?_, ?_, ?_, ?_⟩ <;> simp [dispatch, hk, hc]

theorem c5_witness :
    dispatch ⟨"kill", "u1"⟩ = some (ActuatorCall.deletePodCall "u1") ∧
    dispatch ⟨"create", "x"⟩ = some ActuatorCall.createPodCall ∧
    dispatch ⟨"kill", ""⟩ = none ∧
    dispatch ⟨"noop", "u1"⟩ = none :=
  ⟨(c5_dispatch ⟨"kill", "u1"⟩).1.mpr (by decide),
   (c5_dispatch ⟨"create", "x"⟩).2.1.mpr rfl,
   (c5_dispatch ⟨"kill", ""⟩).2.2.2 ⟨rfl, rfl⟩,
   (c5_dispatch ⟨"noop", "u1"⟩).2.2.1 (by decide)⟩

/-- One iteration input of the read loop of `handleWebSocket`
(src/main.go lines 184-199): either a successfully decoded
`IncomingMessage`, or a `ws.ReadJSON` error (malformed frame or broken
connection). -/
inductive Frame where
  | goodFrame (msg : IncomingMessage)
  | badFrame
deriving DecidableEq

/-- The observable side effects available to the session and delivery
code: deleting a session from the `wsClients` registry, calling
`Close()` on its connection, or launching an actuator goroutine. -/
inductive SessionEffect where
  | deregister (s : Session)
  | closeConn (s : Session)
  | actuate (c : ActuatorCall)
deriving DecidableEq

/-- The read loop of `handleWebSocket` (src/main.go lines 184-199) run on a
prefix of the session's inbound frames: on a decode error it executes
`delete(wsClients, ws); break` (lines 187-189) — the registry delete is its
only effect there, the loop stops, and no `Close()` call occurs on that
path; a decoded message triggers at most one actuator goroutine. -/
def handleWebSocketLoop (self : Session) : List Frame → List SessionEffect
  | [] => []
  | Frame.badFrame :: _ => [SessionEffect.deregister self]
  | Frame.goodFrame m :: rest =>
    (match dispatch m with
     | some c => [SessionEffect.actuate c]
     | none => []) ++ handleWebSocketLoop self rest

/-- Applying a list of session effects to the `wsClients` registry: only
`deregister` mutates it. -/
def applyEffects (registry : List Session) : List SessionEffect → List Session
  | [] => registry
  | SessionEffect.deregister s :: rest => applyEffects (registry.erase s) rest
  | SessionEffect.closeConn _ :: rest => applyEffects registry rest
  | SessionEffect.actuate _ :: rest => applyEffects registry rest

/-- Helper: the session read loop only ever deregisters its own session. -/
theorem handleWebSocketLoop_deregister_self (self : Session) :
    ∀ (frames : List Frame) (u : Session),
      SessionEffect.deregister u ∈ handleWebSocketLoop self frames → u = self := by
  intro frames
  induction frames with
  | nil => intro u h; simp [handleWebSocketLoop] at h
  | cons f rest ih =>
    intro u h
    cases f with
    | badFrame =>
      simp only [handleWebSocketLoop, List.mem_singleton] at h
      exact (SessionEffect.deregister.inj h)
    | goodFrame m =>
      simp only [handleWebSocketLoop, List.mem_append] at h
      rcases h with h | h
      · cases hd : dispatch m with
        | none => rw [hd] at h; simp at h
        | some c => rw [hd] at h; simp at h
      · exact ih u h

/-- Helper: the session read loop never calls `Close()`. -/
theorem handleWebSocketLoop_no_close (self : Session) :
    ∀ (frames : List Frame) (u : Session),
      SessionEffect.closeConn u ∉ handleWebSocketLoop self frames := by
  intro frames
  induction frames with
  | nil => intro u h; simp [handleWebSocketLoop] at h
  | cons f rest ih =>
    intro u h
    cases f with
    | badFrame => simp [handleWebSocketLoop] at h
    | goodFrame m =>
      simp only [handleWebSocketLoop, List.mem_append] at h
      rcases h with h | h
      · cases hd : dispatch m with
        | none => rw [hd] at h; simp at h
        | some c => rw [hd] at h; simp at h
      · exact ih u h

/-- Helper: a registered session not named by any deregister effect stays
registered. -/
theorem applyEffects_mem (t : Session) :
    ∀ (effects : List SessionEffect) (registry : List Session),
      t ∈ registry →
      (∀ u, SessionEffect.deregister u ∈ effects → t ≠ u) →
      t ∈ applyEffects registry effects := by
  intro effects
  induction effects with
  | nil => intro registry ht _; exact ht
  | cons e rest ih =>
    intro registry ht hu
    cases e with
    | deregister u =>
      refine ih (registry.erase u) ?_ ?_
      · exact (List.mem_erase_of_ne (hu u (List.mem_cons_self _ _))).mpr ht
      · intro v hv; exact hu v (List.mem_cons_of_mem _ hv)
    | closeConn u =>
      exact ih registry ht (fun v hv => hu v (List.mem_cons_of_mem _ hv))
    | actuate c =>
      exact ih registry ht (fun v hv => hu v (List.mem_cons_of_mem _ hv))

/-- Helper: after the first decode error the loop processes no further
frames. -/
theorem handleWebSocketLoop_stops (self : Session) :
    ∀ (pre post : List Frame), (∀ f ∈ pre, f ≠ Frame.badFrame) →
      handleWebSocketLoop self (pre ++ Frame.badFrame :: post)
        = handleWebSocketLoop self (pre ++ [Frame.badFrame]) := by
  intro pre
  induction pre with
  | nil => intro post _; rfl
  | cons f rest ih =>
    intro post hgood
    cases f with
    | badFrame =>
      exact absurd rfl (hgood Frame.badFrame (List.mem_cons_self _ _))
    | goodFrame m =>
      simp only [List.cons_append, handleWebSocketLoop, List.append_eq]
      rw [ih post (fun g hg => hgood g (List.mem_cons_of_mem _ hg))]

/-- Helper: the deregister effect is always emitted once the bad frame is
reached. -/
theorem handleWebSocketLoop_deregister_mem (self : Session) :
    ∀ (pre post : List Frame),
      SessionEffect.deregister self ∈
        handleWebSocketLoop self (pre ++ Frame.badFrame :: post) := by
  intro pre
  induction pre with
  | nil =>
    intro post
    simp [handleWebSocketLoop]
  | cons f rest ih =>
    intro post
    cases f with
    | badFrame => simp [handleWebSocketLoop]
    | goodFrame m =>
      simp only [List.cons_append, handleWebSocketLoop, List.mem_append]
      exact Or.inr (ih post)

/-- C8 (amended): a decode error on a session's inbound frames ends the
session — it is deregistered from the registry, its read loop stops
(frames after the error trigger nothing), and every other registered
session stays registered; the error path does not call `Close()` on the
connection. -/
theorem c8_session_teardown (self t : Session) (registry : List Session)
    (pre post : List Frame)
    (hpre : ∀ f ∈ pre, f ≠ Frame.badFrame)
    (ht : t ∈ registry) (hts : t ≠ self) :
    handleWebSocketLoop self (pre ++ Frame.badFrame :: post)
      = handleWebSocketLoop self (pre ++ [Frame.badFrame]) ∧
    SessionEffect.deregister self ∈
      handleWebSocketLoop self (pre ++ Frame.badFrame :: post) ∧
    t ∈ applyEffects registry (handleWebSocketLoop self (pre ++ Frame.badFrame :: post)) ∧
    SessionEffect.closeConn self ∉
      handleWebSocketLoop self (pre ++ Frame.badFrame :: post) := by
  refine ⟨handleWebSocketLoop_stops self pre post hpre,
          handleWebSocketLoop_deregister_mem self pre post, ?_,
          handleWebSocketLoop_no_close self _ self⟩
  refine applyEffects_mem t _ registry ht ?_
  intro u hu
  rw [handleWebSocketLoop_deregister_self self _ u hu]
  exact hts

/-- C8 counterexample to the claim as stated: on a decode error the read
loop's only effect is the registry delete — no `Close()`-style release of
the connection occurs on that path. -/
theorem c8_counterexample :
    handleWebSocketLoop 0 [Frame.badFrame] = [SessionEffect.deregister 0] ∧
    SessionEffect.closeConn 0 ∉ handleWebSocketLoop 0 [Frame.badFrame] := by
  decide

theorem c8_witness :
    (∀ f ∈ ([] : List Frame), f ≠ Frame.badFrame) ∧
    (1 : Session) ∈ [0, 1] ∧ (1 : Session) ≠ 0 ∧
    (handleWebSocketLoop 0 ([] ++ Frame.badFrame :: [Frame.goodFrame ⟨"create", ""⟩])
       = handleWebSocketLoop 0 ([] ++ [Frame.badFrame]) ∧
     SessionEffect.deregister 0 ∈
       handleWebSocketLoop 0 ([] ++ Frame.badFrame :: [Frame.goodFrame ⟨"create", ""⟩]) ∧
     (1 : Session) ∈ applyEffects [0, 1]
       (handleWebSocketLoop 0 ([] ++ Frame.badFrame :: [Frame.goodFrame ⟨"create", ""⟩])) ∧
     SessionEffect.closeConn 0 ∉
       handleWebSocketLoop 0 ([] ++ Frame.badFrame :: [Frame.goodFrame ⟨"create", ""⟩])) :=
  ⟨by decide, by decide, by decide,
   c8_session_teardown 0 1 [0, 1] [] [Frame.goodFrame ⟨"create", ""⟩]
     (by decide) (by decide) (by decide)⟩

/-- A pod as returned by the Kubernetes `List` call in `deletePod`: UID and
display name (the only fields the loop reads). -/
structure PodEntry where
  uid : String
  name : String
deriving DecidableEq

/-- A mutating Kubernetes call issued by the actuator path. -/
inductive K8sMutation where
  | deleteByName (ns podName : String)
deriving DecidableEq

/-- The matching loop of `deletePod` (src/main.go lines 209-215): the name
of the first listed pod whose UID equals `uid`, or `""` when none
matches. -/
def findPodName : List PodEntry → String → String
  | [], _ => ""
  | p :: ps, uid => if p.uid = uid then p.name else findPodName ps uid

/-- `deletePod` (src/main.go lines 202-223).  `listResult` is the outcome
of the `List` call; `deleteErr` is the error, if any, returned by the
`Delete` call when one is issued — the source on line 218 discards the
`Delete` return value entirely, so `deleteErr` influences nothing.
Returns the mutating calls issued and the log lines written. -/
def deletePod (listResult : Except String (List PodEntry))
    (_deleteErr : Option String) (uid : String) :
    List K8sMutation × List String :=
  match listResult with
  | Except.error e => ([], ["Failed to list pods: " ++ e])
  | Except.ok pods =>
    if findPodName pods uid ≠ "" then
      ([K8sMutation.deleteByName "default" (findPodName pods uid)],
       ["Deleted Pod: " ++ findPodName pods uid])
    else
      ([], ["Pod with UID " ++ uid ++ " not found"])

/-- Helper: a non-empty name returned by the matching loop belongs to a
listed pod with the requested UID. -/
theorem findPodName_mem (uid : String) :
    ∀ pods : List PodEntry, findPodName pods uid ≠ "" →
      ∃ p ∈ pods, p.uid = uid ∧ p.name = findPodName pods uid := by
  intro pods
  induction pods with
  | nil => intro h; exact absurd rfl h
  | cons p ps ih =>
    intro h
    by_cases hu : p.uid = uid
    · refine ⟨p, List.mem_cons_self _ _, hu, ?_⟩
      simp [findPodName, hu]
    · rw [findPodName, if_neg hu] at h ⊢
      obtain ⟨q, hq, hqu, hqn⟩ := ih h
      exact ⟨q, List.mem_cons_of_mem _ hq, hqu, hqn⟩

/-- C6 supporting evidence: `deletePod` run at a concrete input where the
listed pods contain a match and the `Delete` call fails with error "boom":
the output (one delete-by-name mutation, the single log line
"Deleted Pod: web") is identical to the output when the `Delete` call
succeeds — the delete error is discarded, never logged. -/
theorem c6_delete_error_unlogged :
    deletePod (Except.ok [⟨"u1", "web"⟩]) (some "boom") "u1"
      = deletePod (Except.ok [⟨"u1", "web"⟩]) none "u1" ∧
    deletePod (Except.ok [⟨"u1", "web"⟩]) (some "boom") "u1"
      = ([K8sMutation.deleteByName "default" "web"], ["Deleted Pod: web"]) ∧
    deletePod (Except.ok [⟨"u2", "web"⟩]) none "u1"
      = ([], ["Pod with UID u1 not found"]) ∧
    deletePod (Except.error "down") none "u1"
      = ([], ["Failed to list pods: down"]) :=
  ⟨rfl, by decide, by decide, rfl⟩

/-- Go `time.Time.Format` of the pattern pieces "15", "04", "05": the
component rendered as two digits with a leading zero. -/
def pad2 (n : Nat) : String :=
  if n < 10 then "0" ++ toString n else toString n

/-- The wall-clock reading `time.Now()` is sampled at, at the second
resolution the format string "150405" uses. -/
structure ClockTime where
  hour : Nat
  minute : Nat
  second : Nat
deriving DecidableEq

/-- The pod manifest `createPod` builds (src/main.go lines 227-237):
namespace, generated name, labels, and (container name, image) pairs. -/
structure PodCreateRequest where
  ns : String
  name : String
  labels : List (String × String)
  containers : List (String × String)
deriving DecidableEq

/-- `createPod` (src/main.go lines 225-242).  `now` is the sampled clock;
`createErr` is the error, if any, returned by the `Create` call.  Returns
the create calls issued and the log lines written; no error is returned
to the caller. -/
def createPod (now : ClockTime) (createErr : Option String) :
    List PodCreateRequest × List String :=
  let req : PodCreateRequest :=
    { ns := "default"
      name := "nginx-" ++ pad2 now.hour ++ pad2 now.minute ++ pad2 now.second
      labels := [("app", "demo")]
      containers := [("nginx", "nginx:alpine")] }
  match createErr with
  | some e => ([req], ["Failed to create pod: " ++ e])
  | none => ([req], [])

/-- Helper: appending to a string with non-empty data cannot give the
empty string. -/
theorem append_ne_empty (s t : String) (h : s.data ≠ []) : s ++ t ≠ "" := by
  intro heq
  apply h
  have hd : (s ++ t).data = ([] : List Char) := by rw [heq]
  rw [String.data_append] at hd
  exact (List.append_eq_nil.mp hd).1

/-- C7: every invocation of createPod issues exactly one create call, whose
name is the non-empty string "nginx-" followed by the clock rendered at
second resolution, with the fixed image "nginx:alpine" and the identifying
label app=demo; a create error produces only a log line. -/
theorem c7_create_request (now : ClockTime) (err : Option String) :
    (createPod now err).1
      = [{ ns := "default"
           name := "nginx-" ++ pad2 now.hour ++ pad2 now.minute ++ pad2 now.second
           labels := [("app", "demo")]
           containers := [("nginx", "nginx:alpine")] }] ∧
    (∀ r ∈ (createPod now err).1, r.name ≠ "") ∧
    (∀ e, err = some e → (createPod now err).2 = ["Failed to create pod: " ++ e]) ∧
    (err = none → (createPod now err).2 = []) := by
  have hone : (createPod now err).1
      = [{ ns := "default"
           name := "nginx-" ++ pad2 now.hour ++ pad2 now.minute ++ pad2 now.second
           labels := [("app", "demo")]
           containers := [("nginx", "nginx:alpine")] }] := by
    cases err <;> rfl
  refine ⟨hone, ?_, ?_, ?_⟩
  · intro r hr
    rw [hone, List.mem_singleton] at hr
    subst hr
    show "nginx-" ++ pad2 now.hour ++ pad2 now.minute ++ pad2 now.second ≠ ""
    rw [String.append_assoc, String.append_assoc]
    exact append_ne_empty "nginx-" _ (by decide)
  · intro e he; subst he; rfl
  · intro he; subst he; rfl

theorem c7_witness :
    (createPod ⟨15, 4, 5⟩ (some "boom")).1
      = [{ ns := "default"
           name := "nginx-" ++ pad2 15 ++ pad2 4 ++ pad2 5
           labels := [("app", "demo")]
           containers := [("nginx", "nginx:alpine")] }] ∧
    (∀ r ∈ (createPod ⟨15, 4, 5⟩ (some "boom")).1, r.name ≠ "") ∧
    (∀ e, (some "boom" : Option String) = some e →
      (createPod ⟨15, 4, 5⟩ (some "boom")).2 = ["Failed to create pod: " ++ e]) ∧
    ((some "boom" : Option String) = none →
      (createPod ⟨15, 4, 5⟩ (some "boom")).2 = []) ∧
    "nginx-" ++ pad2 15 ++ pad2 4 ++ pad2 5 = "nginx-150405" :=
  ⟨(c7_create_request ⟨15, 4, 5⟩ (some "boom")).1,
   (c7_create_request ⟨15, 4, 5⟩ (some "boom")).2.1,
   (c7_create_request ⟨15, 4, 5⟩ (some "boom")).2.2.1,
   (c7_create_request ⟨15, 4, 5⟩ (some "boom")).2.2.2,
   by decide⟩

/-- The capacity the `broadcast` channel is created with
(src/main.go line 33): `make(chan BridgeMessage)` takes no capacity
argument, so the channel is unbuffered. -/
def broadcastChanCapacity : Nat := 0

/-- Go channel-send semantics applied to the `broadcast` channel: a send
completes without blocking exactly when a receiver is already waiting at
the channel or the buffer has a free slot. -/
def publishBlocks (receiverWaiting : Bool) (queued : Nat) : Bool :=
  !receiverWaiting && decide (broadcastChanCapacity ≤ queued)

/-- C9 counterexample to the claim as stated: the `broadcast` channel is
created with capacity 0, not unbounded, and a publish with no receiver
waiting blocks even when nothing is queued. -/
theorem c9_counterexample :
    broadcastChanCapacity = 0 ∧ publishBlocks false 0 = true := by
  decide

/-- C9 (amended): publish is a rendezvous on an unbuffered channel — it
completes without blocking exactly when the delivery loop is waiting at
its receive, and blocks otherwise, for any number of pending producers. -/
theorem c9_publish_rendezvous (queued : Nat) :
    broadcastChanCapacity = 0 ∧
    publishBlocks true queued = false ∧
    publishBlocks false queued = true := by
  refine ⟨rfl, rfl, ?_⟩
  simp [publishBlocks, broadcastChanCapacity]

theorem c9_witness :
    broadcastChanCapacity = 0 ∧
    publishBlocks true 7 = false ∧
    publishBlocks false 7 = true :=
  c9_publish_rendezvous 7

end Bridge
